import Mathlib

/-!
Shallow embedding of the pyblish-qml publish controller
(src/pyblish_qml/controller.py) and of the window close policy
(src/pyblish_qml/app.py).  The repository modules model.py and rest.py are
not under src/, so the item-collection contract and the host transport are
modelled from the specification where they matter; every such definition is
marked in its doc comment.  Signal emission to a connected handler
(Controller.__init__ connects processed to process_handler and finished to
finished_handler) is modelled as a synchronous call, and the remote host as
scripted responses.
-/

/-- One work item (an instance or a plugin), as built by model.Item from a
host record.  The runtime fields mirror the fields controller.py reads and
writes; publish and active keep the raw record values, with none standing
for an absent key. -/
structure Item where
  name : String
  type : String
  optional : Bool
  publish : Option Bool
  active : Option Bool
  isToggled : Bool
  isProcessing : Bool
  currentProgress : Nat
  hasError : Bool
  succeeded : Bool
  deriving Repr, DecidableEq

/-- A named mutable item field together with the value handed to setData. -/
inductive FieldVal where
  | isToggled (b : Bool)
  | isProcessing (b : Bool)
  | currentProgress (n : Nat)
  | hasError (b : Bool)
  | succeeded (b : Bool)
  deriving Repr, DecidableEq

/-- Modelled from the spec: the field write performed by
model.ItemCollection.setData on one item (model.py is not under src/).  Per
the spec contract for setField, an attempt to clear isToggled on a
non-optional item is rejected, which we model as leaving the item
unchanged; every other write stores the value. -/
def Item.setField (it : Item) : FieldVal → Item
  | .isToggled b => if b = false ∧ it.optional = false then it else { it with isToggled := b }
  | .isProcessing b => { it with isProcessing := b }
  | .currentProgress n => { it with currentProgress := n }
  | .hasError b => { it with hasError := b }
  | .succeeded b => { it with succeeded := b }

/-- Modelled from the spec: model.ItemCollection.setData by index.  All
setData calls issued by controller.py use indices obtained from the
collection itself, so the out-of-range case never arises there; it is
modelled as leaving the collection unchanged. -/
def setData (items : List Item) (i : Nat) (v : FieldVal) : List Item :=
  match items.get? i with
  | none => items
  | some it => items.set i (it.setField v)

/-- One /next step result as consumed by process_handler: the values of
data.get on the instance, plugin and error keys (none for an absent key,
and the truthiness of the error value as a Bool). -/
structure StepResult where
  instanceName : Option String
  pluginName : Option String
  error : Bool
  deriving Repr, DecidableEq

/-- Observable actions of the controller: the outgoing signals of
Controller (error, info, processed, finished) and the host requests made
through rest.request. -/
inductive Event where
  | error (msg : String)
  | info (msg : String)
  | processed (data : StepResult)
  | finished
  | request (method : String) (path : String)
  deriving Repr, DecidableEq

/-- The state owned by Controller: both item collections and the run flags
_has_errors and _is_running. -/
structure Ctrl where
  instances : List Item
  plugins : List Item
  hasErrors : Bool
  isRunning : Bool
  deriving Repr, DecidableEq

/-- Controller.update_instances, effect on one item of the instance
collection: the item named by the result is marked processing with
progress 1 and gets hasError or succeeded from the result error flag;
every other item is marked not processing. -/
def stepInstance (data : StepResult) (it : Item) : Item :=
  if data.instanceName = some it.name then
    let it1 := (it.setField (.isProcessing true)).setField (.currentProgress 1)
    if data.error then it1.setField (.hasError true) else it1.setField (.succeeded true)
  else
    it.setField (.isProcessing false)

/-- Controller.update_instances: fold a step result into the instance
collection. -/
def update_instances (data : StepResult) (items : List Item) : List Item :=
  items.map (stepInstance data)

/-- Result of the Controller.update_plugins loop: the updated collection,
the updated _has_errors flag, whether the halt rule fired (_is_running was
cleared), and the emitted events. -/
structure PluginsUpdate where
  items : List Item
  hasErrors : Bool
  halted : Bool
  events : List Event
  deriving Repr, DecidableEq

/-- Controller.update_plugins, the for-loop over the plugin collection.
When the result names the current item and _has_errors is already set and
the item type is the extraction kind, the loop returns early: it emits the
info message exactly as spelled in the source, reports the halt, and
leaves the matched item and every later item untouched.  Otherwise the
matched item is marked processing and gets hasError (also setting
_has_errors) or succeeded, and every non-matching item is marked not
processing. -/
def updatePluginsGo (data : StepResult) : Bool → List Item → PluginsUpdate
  | he, [] => ⟨[], he, false, []⟩
  | he, it :: rest =>
    if data.pluginName = some it.name then
      if he = true ∧ it.type = "Extractor" then
        ⟨it :: rest, he, true, [Event.info "Stopped due to failed vaildation"]⟩
      else
        let it1 := (it.setField (.isProcessing true)).setField (.currentProgress 1)
        let it2 := if data.error then it1.setField (.hasError true) else it1.setField (.succeeded true)
        let he2 := if data.error then true else he
        let r := updatePluginsGo data he2 rest
        ⟨it2 :: r.items, r.hasErrors, r.halted, r.events⟩
    else
      let r := updatePluginsGo data he rest
      ⟨it.setField (.isProcessing false) :: r.items, r.hasErrors, r.halted, r.events⟩

/-- Controller.update_plugins: fold a step result into the plugin
collection and the run flags. -/
def update_plugins (data : StepResult) (c : Ctrl) : Ctrl × List Event :=
  let r := updatePluginsGo data c.hasErrors c.plugins
  ({ c with plugins := r.items, hasErrors := r.hasErrors,
            isRunning := if r.halted then false else c.isRunning }, r.events)

/-- Controller.process_handler: a processed signal updates the instance
collection and then the plugin collection. -/
def process_handler (data : StepResult) (c : Ctrl) : Ctrl × List Event :=
  update_plugins data { c with instances := update_instances data c.instances }

/-- Controller.reset_status: issues POST /session, clears _has_errors and
_is_running, and clears isProcessing and currentProgress on every item of
both collections. -/
def reset_status (c : Ctrl) : Ctrl × List Event :=
  ({ c with hasErrors := false, isRunning := false,
            instances := c.instances.map
              (fun it => (it.setField (.isProcessing false)).setField (.currentProgress 0)),
            plugins := c.plugins.map
              (fun it => (it.setField (.isProcessing false)).setField (.currentProgress 0)) },
   [Event.request "POST" "/session"])

/-- Emission of the finished signal: the finished event followed by the
effects of the connected finished_handler, which runs reset_status. -/
def emitFinished (c : Ctrl) : Ctrl × List Event :=
  let r := reset_status c
  (r.1, Event.finished :: r.2)

/-- Controller.reset_state: clears hasError and succeeded on every item of
both collections, touching nothing else. -/
def reset_state (c : Ctrl) : Ctrl :=
  { c with instances := c.instances.map
             (fun it => (it.setField (.hasError false)).setField (.succeeded false)),
           plugins := c.plugins.map
             (fun it => (it.setField (.hasError false)).setField (.succeeded false)) }

/-- Controller._toggle_item: while _is_running the call is rejected with
the error signal spelled as in the source; otherwise the item at the index
has isToggled flipped through setData.  none models the exception that
itemFromIndex raises on an out-of-range index. -/
def toggle_item (running : Bool) (items : List Item) (i : Nat) :
    Option (List Item × List Event) :=
  if running then some (items, [Event.error "Cannot untick while publishing"])
  else
    match items.get? i with
    | none => none
    | some it => some (setData items i (.isToggled (!it.isToggled)), [])

/-- Controller.toggleInstance: _toggle_item on the instance collection. -/
def toggleInstance (c : Ctrl) (i : Nat) : Option (Ctrl × List Event) :=
  (toggle_item c.isRunning c.instances i).map fun r => ({ c with instances := r.1 }, r.2)

/-- Controller.togglePlugin: looks the item up first; a non-optional
plugin is rejected with the mandatory error signal, an optional one goes
through _toggle_item. -/
def togglePlugin (c : Ctrl) (i : Nat) : Option (Ctrl × List Event) :=
  match c.plugins.get? i with
  | none => none
  | some it =>
    if it.optional then
      (toggle_item c.isRunning c.plugins i).map fun r => ({ c with plugins := r.1 }, r.2)
    else
      some (c, [Event.error "Plug-in is mandatory"])

/-- Names of the toggled items, in collection order, as publish gathers
them from the serialized snapshots. -/
def toggledNames (items : List Item) : List String :=
  (items.filter (fun it => it.isToggled)).map (fun it => it.name)

/-- The response to the POST /state submission, as read by publish:
status_code and the value behind response.get on the message key. -/
structure StateResponse where
  status : Nat
  message : Option String
  deriving Repr, DecidableEq

/-- How a call to Controller.publish ends: returning at the empty-selection
guard, leaving by an uncaught exception raised inside the except block, or
setting _is_running and starting the loop. -/
inductive PublishOutcome where
  | emptySelection (c : Ctrl) (evs : List Event)
  | submitFailed (c : Ctrl) (evs : List Event) (uncaught : String)
  | started (c : Ctrl) (evs : List Event)
  deriving Repr, DecidableEq

/-- The events a publish outcome emitted before control left publish. -/
def PublishOutcome.events : PublishOutcome → List Event
  | .emptySelection _ evs => evs
  | .submitFailed _ evs _ => evs
  | .started _ evs => evs

/-- The controller state a publish outcome left behind. -/
def PublishOutcome.ctrl : PublishOutcome → Ctrl
  | .emptySelection c _ => c
  | .submitFailed c _ _ => c
  | .started c _ => c

/-- The info message publish builds out of the collected names, string for
string as in the source. -/
def infoMessage (context plugins : List String) : String :=
  let m := context.foldl (fun acc n => acc ++ "\n  - " ++ n) "Instances:"
  let m2 := plugins.foldl (fun acc n => acc ++ "\n  - " ++ n) (m ++ "\n\nPlug-ins:")
  m2 ++ "\n"

/-- Controller.publish.  With an empty context or plugin list it emits
finished (whose connected handler runs reset_status, issuing POST
/session) and then the error signal, and returns.  Otherwise it emits the
info message, issues POST /state, and on status 200 sets _is_running and
calls start, whose first act is reset_state.  On a non-200 status the
source raises a builtin Exception and the except block evaluates e.msg; a
builtin Exception has no msg attribute, so that attribute lookup raises
AttributeError, which leaves publish before any error signal is emitted —
modelled as the submitFailed outcome. -/
def publish (c : Ctrl) (resp : StateResponse) : PublishOutcome :=
  let context := toggledNames c.instances
  let plugins := toggledNames c.plugins
  if context.isEmpty ∨ plugins.isEmpty then
    let r := emitFinished c
    .emptySelection r.1 (r.2 ++ [Event.error "Must specify an instance and plug-in"])
  else
    let evs := [Event.info (infoMessage context plugins), Event.request "POST" "/state"]
    if resp.status = 200 then
      .started { reset_state c with isRunning := true } evs
    else
      .submitFailed c evs "AttributeError"

/-- One scripted answer of the host to a POST /next request. -/
structure HostResponse where
  status : Nat
  result : StepResult
  deriving Repr, DecidableEq

/-- The worker loop of Controller.start, with the host scripted as the
list of /next responses in order.  A request is issued before the while
condition is checked, so one response is consumed per request event; when
the condition holds the processed signal (synchronously running
process_handler) folds the result in and the loop body ends by issuing the
next request; when it fails the loop exits and finished is emitted.  none
means the script ran out of responses for a request the loop issued. -/
def runLoop (c : Ctrl) : List HostResponse → Option (Ctrl × List Event)
  | [] => none
  | r :: rest =>
    if c.isRunning = true ∧ r.status = 200 then
      let f := process_handler r.result c
      match runLoop f.1 rest with
      | none => none
      | some q => some (q.1, Event.request "POST" "/next" :: Event.processed r.result :: f.2 ++ q.2)
    else
      let e := emitFinished c
      some (e.1, Event.request "POST" "/next" :: e.2)

/-- Outcome of a close event in Window.event of app.py: either the close
is accepted and the given message is emitted to the host, or it is ignored
and the given hint is printed. -/
inductive CloseOutcome where
  | accepted (hostMessage : String)
  | ignored (hint : String)
  deriving Repr, DecidableEq

/-- Window.event on a close event: Shift forces an unconditional close
notification; otherwise the close is accepted exactly when the states
collection contains ready or finished, and ignored with the hint printed
by the source in every other case. -/
def windowCloseEvent (shiftPressed : Bool) (states : List String) : CloseOutcome :=
  if shiftPressed then .accepted "pyblishQmlCloseForced"
  else if "ready" ∈ states ∨ "finished" ∈ states then .accepted "pyblishQmlClose"
  else .ignored "Not ready, hold SHIFT to force an exit"

/-- One host record as fed to Controller.init, with none standing for an
absent publish or active key (the spec tri-state). -/
structure Record where
  name : String
  type : String
  optional : Bool
  publish : Option Bool
  active : Option Bool
  deriving Repr, DecidableEq

/-- Modelled from the spec: model.Item built from a host record (model.py
is not under src/).  Record fields are copied, the runtime fields start at
their defaults: transient flags cleared, progress zero, the item selected.
No claim below depends on the default of isToggled. -/
def itemOfRecord (r : Record) : Item :=
  { name := r.name, type := r.type, optional := r.optional, publish := r.publish,
    active := r.active, isToggled := true, isProcessing := false, currentProgress := 0,
    hasError := false, succeeded := false }

/-- Controller.init, instance half: every record becomes an item whose
isToggled is true exactly when publish is in (True, None). -/
def initInstances (rs : List Record) : List Item :=
  rs.map fun r =>
    { itemOfRecord r with
      isToggled := match r.publish with | some false => false | _ => true }

/-- Controller.init, plugin half: a record whose active value is False is
skipped before adding; every other record becomes an item. -/
def initPlugins (rs : List Record) : List Item :=
  (rs.filter fun r => !(r.active == some false)).map itemOfRecord

/-- The number of items of a collection currently marked processing. -/
def procCount (items : List Item) : Nat :=
  items.countP (fun it => it.isProcessing)

/-- Setting a list position to the element already there leaves the list
unchanged. -/
theorem list_set_get_self {α : Type} (l : List α) (i : Nat) (a : α)
    (h : l.get? i = some a) : l.set i a = l := by
  induction l generalizing i with
  | nil => simp at h
  | cons x xs ih =>
    cases i with
    | zero =>
      simp only [List.get?] at h
      cases h
      rfl
    | succ n =>
      simp only [List.get?] at h
      simp [List.set, ih n h]

/-- C10: every emission of the finished notification runs reset_status,
whose whole effect is one POST /session request, clearing hasErrors and
isRunning, and clearing isProcessing and currentProgress on every item of
both collections while leaving isToggled, hasError and succeeded of every
item unchanged. -/
theorem finished_triggers_reset_status (c : Ctrl) :
    emitFinished c =
      ({ c with
          hasErrors := false
          isRunning := false
          instances := c.instances.map
            (fun it => { it with isProcessing := false, currentProgress := 0 })
          plugins := c.plugins.map
            (fun it => { it with isProcessing := false, currentProgress := 0 }) },
       [Event.finished, Event.request "POST" "/session"]) := rfl

/-- Concrete controller used by witnesses of the reset claims. -/
def ctrlW10 : Ctrl :=
  { instances := [{ name := "A", type := "Model", optional := true, publish := none,
                    active := none, isToggled := true, isProcessing := true,
                    currentProgress := 1, hasError := true, succeeded := false }],
    plugins := [{ name := "V", type := "Validator", optional := false, publish := none,
                  active := none, isToggled := true, isProcessing := false,
                  currentProgress := 1, hasError := false, succeeded := true }],
    hasErrors := true, isRunning := true }

/-- Witness for the finished-notification reset claim at a concrete state. -/
theorem finished_triggers_reset_status_witness :
    emitFinished ctrlW10 =
      ({ ctrlW10 with
          hasErrors := false
          isRunning := false
          instances := ctrlW10.instances.map
            (fun it => { it with isProcessing := false, currentProgress := 0 })
          plugins := ctrlW10.plugins.map
            (fun it => { it with isProcessing := false, currentProgress := 0 }) },
       [Event.finished, Event.request "POST" "/session"]) :=
  finished_triggers_reset_status ctrlW10

/-- C9 (amended): with the Shift override the close is accepted with the
unconditional force notification in every phase; without it the close is
accepted exactly when the states contain ready or finished, and otherwise
it is ignored with the hint printed by the source, which reads
"Not ready, hold SHIFT to force an exit". -/
theorem close_policy_amended (shift : Bool) (states : List String) :
    (shift = true → windowCloseEvent shift states = .accepted "pyblishQmlCloseForced") ∧
    (shift = false → ("ready" ∈ states ∨ "finished" ∈ states) →
      windowCloseEvent shift states = .accepted "pyblishQmlClose") ∧
    (shift = false → ¬("ready" ∈ states ∨ "finished" ∈ states) →
      windowCloseEvent shift states = .ignored "Not ready, hold SHIFT to force an exit") := by
  refine ⟨fun h => ?_, fun h hm => ?_, fun h hm => ?_⟩
  · simp [windowCloseEvent, h]
  · simp [windowCloseEvent, h, hm]
  · simp [windowCloseEvent, h, hm]

/-- Witness for the close policy at concrete inputs. -/
theorem close_policy_amended_witness :
    windowCloseEvent true ["publishing"] = CloseOutcome.accepted "pyblishQmlCloseForced" ∧
    windowCloseEvent false ["ready"] = CloseOutcome.accepted "pyblishQmlClose" ∧
    windowCloseEvent false ["publishing"] =
      CloseOutcome.ignored "Not ready, hold SHIFT to force an exit" :=
  ⟨(close_policy_amended true ["publishing"]).1 rfl,
   (close_policy_amended false ["ready"]).2.1 rfl (Or.inl (by decide)),
   (close_policy_amended false ["publishing"]).2.2 rfl (by decide)⟩

/-- C9 counterexample: in a non-ready phase without the override the
surfaced hint is the source text, not the text quoted by the claim. -/
theorem close_hint_counterexample :
    windowCloseEvent false ["publishing"] =
      CloseOutcome.ignored "Not ready, hold SHIFT to force an exit" ∧
    windowCloseEvent false ["publishing"] ≠
      CloseOutcome.ignored "hold override to force exit" := by
  constructor
  · decide
  · decide

/-- An item with the given identity fields and default runtime fields. -/
def mkItem (nm ty : String) (opt tog : Bool) : Item :=
  { name := nm, type := ty, optional := opt, publish := none, active := none,
    isToggled := tog, isProcessing := false, currentProgress := 0,
    hasError := false, succeeded := false }

/-- C6: a toggle attempt that would clear isToggled on a non-optional item
is rejected with the whole state unchanged: toggleInstance on a
non-optional toggled instance leaves the controller as it was, and
togglePlugin on a non-optional plugin emits only the mandatory error and
changes nothing. -/
theorem nonoptional_toggle_rejected (c : Ctrl) (i j : Nat) (ii pj : Item)
    (hi : c.instances.get? i = some ii) (hio : ii.optional = false)
    (hit : ii.isToggled = true)
    (hj : c.plugins.get? j = some pj) (hjo : pj.optional = false) :
    (toggleInstance c i).map Prod.fst = some c ∧
    togglePlugin c j = some (c, [Event.error "Plug-in is mandatory"]) := by
  obtain ⟨ci, cp, che, cir⟩ := c
  dsimp only at hi hj
  have hi2 : ci[i]? = some ii := by rw [← List.get?_eq_getElem?]; exact hi
  have hj2 : cp[j]? = some pj := by rw [← List.get?_eq_getElem?]; exact hj
  constructor
  · have hset : setData ci i (.isToggled (!ii.isToggled)) = ci := by
      unfold setData
      rw [hi, hit]
      show ci.set i (ii.setField (FieldVal.isToggled false)) = ci
      have h2 : ii.setField (FieldVal.isToggled false) = ii := by
        simp [Item.setField, hio]
      rw [h2]
      exact list_set_get_self ci i ii hi
    cases cir with
    | true => simp [toggleInstance, toggle_item]
    | false => simp [toggleInstance, toggle_item, hi2, hset]
  · simp [togglePlugin, hj2, hjo]

/-- Concrete controller for the non-optional toggle witness: one
non-optional toggled instance and one non-optional plugin, not running. -/
def ctrlW6 : Ctrl :=
  { instances := [mkItem "A" "Model" false true],
    plugins := [mkItem "V" "Validator" false true],
    hasErrors := false, isRunning := false }

/-- Witness for the non-optional toggle claim at a concrete state. -/
theorem nonoptional_toggle_rejected_witness :
    ctrlW6.instances.get? 0 = some (mkItem "A" "Model" false true) ∧
    (mkItem "A" "Model" false true).optional = false ∧
    (mkItem "A" "Model" false true).isToggled = true ∧
    ctrlW6.plugins.get? 0 = some (mkItem "V" "Validator" false true) ∧
    (mkItem "V" "Validator" false true).optional = false ∧
    ((toggleInstance ctrlW6 0).map Prod.fst = some ctrlW6 ∧
      togglePlugin ctrlW6 0 = some (ctrlW6, [Event.error "Plug-in is mandatory"])) :=
  ⟨by decide, by decide, by decide, by decide, by decide,
   nonoptional_toggle_rejected ctrlW6 0 0 (mkItem "A" "Model" false true)
     (mkItem "V" "Validator" false true) (by decide) (by decide) (by decide)
     (by decide) (by decide)⟩

/-- C5 (amended): while isRunning is true, toggleInstance is rejected with
the error notification "Cannot untick while publishing" and no state
change; togglePlugin is rejected the same way on an optional plugin and
with "Plug-in is mandatory" on a non-optional one, again with no state
change. -/
theorem toggle_while_running_amended (c : Ctrl) (i j : Nat) (pj : Item)
    (hrun : c.isRunning = true) (hj : c.plugins.get? j = some pj) :
    toggleInstance c i = some (c, [Event.error "Cannot untick while publishing"]) ∧
    togglePlugin c j = some (c,
      [Event.error (if pj.optional then "Cannot untick while publishing"
                    else "Plug-in is mandatory")]) := by
  obtain ⟨ci, cp, che, cir⟩ := c
  dsimp only at hrun hj
  subst hrun
  have hj2 : cp[j]? = some pj := by rw [← List.get?_eq_getElem?]; exact hj
  constructor
  · simp [toggleInstance, toggle_item]
  · cases hopt : pj.optional <;> simp [togglePlugin, toggle_item, hj2, hopt]

/-- Concrete running controller for the while-running toggle claims: one
optional toggled instance, one non-optional plugin, mid-run. -/
def ctrlC5 : Ctrl :=
  { instances := [mkItem "A" "Model" true true],
    plugins := [mkItem "V" "Validator" false true],
    hasErrors := false, isRunning := true }

/-- Witness for the amended while-running toggle claim at a concrete
state. -/
theorem toggle_while_running_amended_witness :
    ctrlC5.isRunning = true ∧
    ctrlC5.plugins.get? 0 = some (mkItem "V" "Validator" false true) ∧
    (toggleInstance ctrlC5 0 = some (ctrlC5, [Event.error "Cannot untick while publishing"]) ∧
      togglePlugin ctrlC5 0 = some (ctrlC5,
        [Event.error (if (mkItem "V" "Validator" false true).optional
                      then "Cannot untick while publishing"
                      else "Plug-in is mandatory")])) :=
  ⟨by decide, by decide,
   toggle_while_running_amended ctrlC5 0 0 (mkItem "V" "Validator" false true)
     (by decide) (by decide)⟩

/-- C5 counterexample: while running, the rejection messages the code
emits are "Cannot untick while publishing" for toggleInstance and
"Plug-in is mandatory" for a non-optional togglePlugin, neither of which
is the "cannot modify while publishing" message the claim quotes; the
no-state-change part does hold. -/
theorem toggle_running_message_counterexample :
    ctrlC5.isRunning = true ∧
    toggleInstance ctrlC5 0 = some (ctrlC5, [Event.error "Cannot untick while publishing"]) ∧
    togglePlugin ctrlC5 0 = some (ctrlC5, [Event.error "Plug-in is mandatory"]) ∧
    "Cannot untick while publishing" ≠ "cannot modify while publishing" ∧
    "Plug-in is mandatory" ≠ "cannot modify while publishing" := by
  refine ⟨by decide, by decide, by decide, by decide, by decide⟩

/-- C3 (amended): publish with no toggled instance or no toggled plugin
emits exactly one finished and one error notification and returns without
submitting state or starting the loop, with isRunning false; the finished
emission itself runs reset_status, which issues a POST /session request. -/
theorem publish_empty_selection_amended (c : Ctrl) (resp : StateResponse)
    (h : toggledNames c.instances = [] ∨ toggledNames c.plugins = []) :
    publish c resp = PublishOutcome.emptySelection (reset_status c).1
      [Event.finished, Event.request "POST" "/session",
       Event.error "Must specify an instance and plug-in"] ∧
    (reset_status c).1.isRunning = false := by
  have hcond : (toggledNames c.instances).isEmpty = true ∨
      (toggledNames c.plugins).isEmpty = true := by
    cases h with
    | inl h => exact Or.inl (by simp [h])
    | inr h => exact Or.inr (by simp [h])
  constructor
  · simp only [publish]
    rw [if_pos hcond]
    rfl
  · rfl

/-- Concrete controller with no toggled instance and one toggled plugin. -/
def ctrlC3 : Ctrl :=
  { instances := [mkItem "A" "Model" true false],
    plugins := [mkItem "V" "Validator" false true],
    hasErrors := false, isRunning := false }

/-- The accepting submission response. -/
def resp200 : StateResponse := { status := 200, message := none }

/-- Witness for the amended empty-selection claim at a concrete state. -/
theorem publish_empty_selection_amended_witness :
    (toggledNames ctrlC3.instances = [] ∨ toggledNames ctrlC3.plugins = []) ∧
    (publish ctrlC3 resp200 = PublishOutcome.emptySelection (reset_status ctrlC3).1
        [Event.finished, Event.request "POST" "/session",
         Event.error "Must specify an instance and plug-in"] ∧
      (reset_status ctrlC3).1.isRunning = false) :=
  ⟨Or.inl (by decide), publish_empty_selection_amended ctrlC3 resp200 (Or.inl (by decide))⟩

/-- C3 counterexample: at a state with no toggled instance, publish does
contact the host before returning — the finished emission runs
reset_status, which issues POST /session — so the claim that no host
request is made fails. -/
theorem publish_empty_request_counterexample :
    toggledNames ctrlC3.instances = [] ∧
    Event.request "POST" "/session" ∈ (publish ctrlC3 resp200).events := by
  constructor
  · decide
  · decide

/-- C2 (amended): when the submission is accepted, publish sets isRunning
true and, before the loop starts, start runs reset_state, which clears the
sticky hasError and succeeded fields on every item of both collections and
leaves isToggled, isProcessing and currentProgress of every item
unchanged; the transient progress fields are not touched here (they are
cleared by reset_status when a finished notification arrives). -/
theorem publish_success_resets_sticky (c : Ctrl) (resp : StateResponse)
    (hc : (toggledNames c.instances).isEmpty = false)
    (hp : (toggledNames c.plugins).isEmpty = false)
    (hs : resp.status = 200) :
    publish c resp = PublishOutcome.started
      { c with
          isRunning := true
          instances := c.instances.map
            (fun it => { it with hasError := false, succeeded := false })
          plugins := c.plugins.map
            (fun it => { it with hasError := false, succeeded := false }) }
      [Event.info (infoMessage (toggledNames c.instances) (toggledNames c.plugins)),
       Event.request "POST" "/state"] := by
  simp only [publish]
  rw [if_neg (by simp [hc, hp]), if_pos hs]
  rfl

/-- Concrete controller whose items carry sticky and transient marks from
an earlier run. -/
def ctrlC2 : Ctrl :=
  { instances := [{ mkItem "A" "Model" true true with
                    hasError := true, isProcessing := true, currentProgress := 1 }],
    plugins := [{ mkItem "V" "Validator" true true with succeeded := true }],
    hasErrors := false, isRunning := false }

/-- Witness for the amended publish-success claim at a concrete state. -/
theorem publish_success_resets_sticky_witness :
    (toggledNames ctrlC2.instances).isEmpty = false ∧
    (toggledNames ctrlC2.plugins).isEmpty = false ∧
    resp200.status = 200 ∧
    publish ctrlC2 resp200 = PublishOutcome.started
      { ctrlC2 with
          isRunning := true
          instances := ctrlC2.instances.map
            (fun it => { it with hasError := false, succeeded := false })
          plugins := ctrlC2.plugins.map
            (fun it => { it with hasError := false, succeeded := false }) }
      [Event.info (infoMessage (toggledNames ctrlC2.instances) (toggledNames ctrlC2.plugins)),
       Event.request "POST" "/state"] :=
  ⟨by decide, by decide, by decide,
   publish_success_resets_sticky ctrlC2 resp200 (by decide) (by decide) (by decide)⟩

/-- C2 counterexample: at a state whose instance carries hasError and
isProcessing from an earlier run, an accepted publish clears the sticky
hasError (the claim says it persists) and leaves isProcessing set (the
claim says it is reset). -/
theorem publish_success_sticky_counterexample :
    (ctrlC2.instances.get? 0).map Item.hasError = some true ∧
    (ctrlC2.instances.get? 0).map Item.isProcessing = some true ∧
    (publish ctrlC2 resp200).ctrl.isRunning = true ∧
    ((publish ctrlC2 resp200).ctrl.instances.get? 0).map Item.hasError = some false ∧
    ((publish ctrlC2 resp200).ctrl.instances.get? 0).map Item.isProcessing = some true := by
  refine ⟨by decide, by decide, by decide, by decide, by decide⟩

/-- Concrete controller with one toggled instance and one toggled plugin,
and the rejecting submission response. -/
def ctrlC4 : Ctrl :=
  { instances := [mkItem "A" "Model" true true],
    plugins := [mkItem "V" "Validator" false true],
    hasErrors := false, isRunning := false }

/-- The rejecting submission response. -/
def resp404 : StateResponse := { status := 404, message := some "rejected" }

/-- C4: on a non-200 submission response the except block of publish
evaluates e.msg on the builtin Exception it just caught; a builtin
Exception has no msg attribute, so an AttributeError escapes publish
before any error notification is emitted.  The loop is still not started
and isRunning stays false, but the failure is not caught and no error
notification carries the failure message, contradicting the claim. -/
theorem publish_submit_failure_uncaught :
    publish ctrlC4 resp404 = PublishOutcome.submitFailed ctrlC4
      [Event.info (infoMessage ["A"] ["V"]), Event.request "POST" "/state"]
      "AttributeError" ∧
    (publish ctrlC4 resp404).ctrl.isRunning = false ∧
    (∀ e ∈ (publish ctrlC4 resp404).events, e ≠ Event.error "rejected") := by
  refine ⟨rfl, rfl, by decide⟩

/-- C7: after initialization from host records, every instance item has
isToggled true exactly when its publish value is true or absent and false
when it is false, and no plugin item built from a record whose active
value is false appears in the plugin collection. -/
theorem init_toggled_and_inactive_dropped (rs : List Record) (it pit : Item)
    (hi : it ∈ initInstances rs) (hp : pit ∈ initPlugins rs) :
    (it.isToggled = true ↔ (it.publish = some true ∨ it.publish = none)) ∧
    ¬ pit.active = some false := by
  constructor
  · rcases List.mem_map.1 hi with ⟨r, _, rfl⟩
    cases hpub : r.publish with
    | none => simp [itemOfRecord, hpub]
    | some b => cases b <;> simp [itemOfRecord, hpub]
  · rcases List.mem_map.1 hp with ⟨r, hr, rfl⟩
    have hact := (List.mem_filter.1 hr).2
    simp only [Bool.not_eq_true', beq_eq_false_iff_ne, ne_eq] at hact
    simpa [itemOfRecord] using hact

/-- Host record of an instance with the publish key absent. -/
def recB : Record :=
  { name := "B", type := "Model", optional := true, publish := none, active := none }

/-- Host record of an active plugin. -/
def recV : Record :=
  { name := "V", type := "Validator", optional := false, publish := none, active := some true }

/-- Concrete host records: an instance marked publish false, one with
publish absent, a plugin marked inactive, and an active plugin. -/
def recsW7 : List Record :=
  [{ name := "A", type := "Model", optional := true, publish := some false, active := none },
   recB,
   { name := "X", type := "Collector", optional := false, publish := none, active := some false },
   recV]

/-- Witness for the initialization claim at concrete records. -/
theorem init_toggled_and_inactive_dropped_witness :
    { itemOfRecord recB with isToggled := true } ∈ initInstances recsW7 ∧
    itemOfRecord recV ∈ initPlugins recsW7 ∧
    (({ itemOfRecord recB with isToggled := true }.isToggled = true ↔
        ({ itemOfRecord recB with isToggled := true }.publish = some true ∨
         { itemOfRecord recB with isToggled := true }.publish = none)) ∧
      ¬ (itemOfRecord recV).active = some false) := by
  refine ⟨by decide, by decide, ?_⟩
  exact init_toggled_and_inactive_dropped recsW7 _ _ (by decide) (by decide)

/-- The item produced by stepInstance is marked processing exactly when
the result names it. -/
theorem stepInstance_isProcessing (data : StepResult) (it : Item) :
    (stepInstance data it).isProcessing = decide (data.instanceName = some it.name) := by
  unfold stepInstance
  by_cases h : data.instanceName = some it.name
  · rw [if_pos h]
    by_cases he : data.error = true
    · simp [he, Item.setField, h]
    · simp only [Bool.not_eq_true] at he
      simp [he, Item.setField, h]
  · rw [if_neg h]
    simp [Item.setField, h]

/-- In a collection whose names are pairwise distinct, at most one item
bears any given name. -/
theorem count_name_le_one (nm : String) (items : List Item)
    (hn : (items.map (fun it => it.name)).Nodup) :
    items.countP (fun it => it.name == nm) ≤ 1 := by
  induction items with
  | nil => simp
  | cons x rest ih =>
    rw [List.map_cons, List.nodup_cons] at hn
    rw [List.countP_cons]
    by_cases hx : x.name = nm
    · have h0 : rest.countP (fun it => it.name == nm) = 0 := by
        rw [List.countP_eq_zero]
        intro a ha
        simp only [beq_iff_eq]
        intro hc
        refine hn.1 ?_
        rw [hx, ← hc]
        exact List.mem_map_of_mem (fun it => it.name) ha
      simp [h0, hx]
    · have hxb : (x.name == nm) = false := by
        simp [hx]
      rw [hxb]
      simpa using ih hn.2

/-- After update_instances at most one instance is marked processing,
provided the instance names are pairwise distinct. -/
theorem update_instances_procCount (data : StepResult) (items : List Item)
    (hn : (items.map (fun it => it.name)).Nodup) :
    procCount (update_instances data items) ≤ 1 := by
  unfold procCount update_instances
  rw [List.countP_map]
  have hcong : ∀ it ∈ items,
      (((fun it => it.isProcessing) ∘ stepInstance data) it = true ↔
        (fun it => decide (data.instanceName = some it.name)) it = true) := by
    intro it _
    simp only [Function.comp]
    rw [stepInstance_isProcessing]
  rw [List.countP_congr hcong]
  cases hd : data.instanceName with
  | none => simp
  | some nm =>
    have hpt : ∀ it ∈ items,
        ((fun it => decide ((some nm : Option String) = some it.name)) it = true ↔
          (fun it => it.name == nm) it = true) := by
      intro it _
      constructor
      · intro h
        simp only [decide_eq_true_eq, Option.some.injEq] at h
        simp [beq_iff_eq, h.symm]
      · intro h
        simp only [beq_iff_eq] at h
        simp [h]
    rw [List.countP_congr hpt]
    exact count_name_le_one nm items hn

/-- The plugin loop on a collection none of whose items the result names
marks every item not processing and does nothing else. -/
theorem updatePluginsGo_nomatch (data : StepResult) (he : Bool) (items : List Item)
    (h : ∀ p ∈ items, ¬ data.pluginName = some p.name) :
    updatePluginsGo data he items =
      ⟨items.map (fun it => it.setField (.isProcessing false)), he, false, []⟩ := by
  induction items with
  | nil => rfl
  | cons x rest ih =>
    have hx := h x (List.mem_cons_self x rest)
    simp only [updatePluginsGo]
    rw [if_neg hx, ih (fun p hp => h p (List.mem_cons_of_mem x hp))]
    rfl

/-- The plugin fold keeps at most one plugin marked processing, provided
the plugin names are pairwise distinct and at most one was processing
before the fold. -/
theorem updatePluginsGo_procCount (data : StepResult) (he : Bool) (items : List Item)
    (hn : (items.map (fun it => it.name)).Nodup) (hpre : procCount items ≤ 1) :
    procCount (updatePluginsGo data he items).items ≤ 1 := by
  induction items generalizing he with
  | nil => simp [updatePluginsGo, procCount]
  | cons x rest ih =>
    rw [List.map_cons, List.nodup_cons] at hn
    have hrest_le : procCount rest ≤ 1 := by
      rw [procCount, List.countP_cons] at hpre
      rw [procCount]
      omega
    by_cases hm : data.pluginName = some x.name
    · by_cases hh : he = true ∧ x.type = "Extractor"
      · simp only [updatePluginsGo]
        rw [if_pos hm, if_pos hh]
        exact hpre
      · have hnom : ∀ p ∈ rest, ¬ data.pluginName = some p.name := by
          intro p hp hc
          rw [hm] at hc
          injection hc with hxp
          refine hn.1 ?_
          rw [hxp]
          exact List.mem_map_of_mem (fun it => it.name) hp
        simp only [updatePluginsGo]
        rw [if_pos hm, if_neg hh]
        dsimp only
        rw [updatePluginsGo_nomatch data _ rest hnom]
        have hzero : (rest.map (fun it => it.setField (.isProcessing false))).countP
            (fun it => it.isProcessing) = 0 := by
          rw [List.countP_map, List.countP_eq_zero]
          intro a _
          simp [Function.comp, Item.setField]
        rw [procCount, List.countP_cons, hzero]
        by_cases herr : data.error = true <;> simp [herr, Item.setField]
    · simp only [updatePluginsGo]
      rw [if_neg hm]
      dsimp only
      rw [procCount, List.countP_cons]
      have hx : (x.setField (.isProcessing false)).isProcessing = false := by
        simp [Item.setField]
      rw [hx]
      simpa [procCount] using ih he hn.2 hrest_le

/-- C8: after a step result is folded in by process_handler, at most one
item per collection is marked processing, whenever the names within each
collection are pairwise distinct (the data-model uniqueness invariant) and
the plugin collection carried at most one processing item before the fold
(as every reachable state does; the early halt return can leave a
previously processing plugin untouched, so the bound on the prior state is
needed). -/
theorem at_most_one_processing (c : Ctrl) (data : StepResult)
    (hni : (c.instances.map (fun it => it.name)).Nodup)
    (hnp : (c.plugins.map (fun it => it.name)).Nodup)
    (hpp : procCount c.plugins ≤ 1) :
    procCount (process_handler data c).1.instances ≤ 1 ∧
    procCount (process_handler data c).1.plugins ≤ 1 := by
  constructor
  · have hrw : (process_handler data c).1.instances = update_instances data c.instances := rfl
    rw [hrw]
    exact update_instances_procCount data c.instances hni
  · have hrw : (process_handler data c).1.plugins =
        (updatePluginsGo data c.hasErrors c.plugins).items := rfl
    rw [hrw]
    exact updatePluginsGo_procCount data c.hasErrors c.plugins hnp hpp

/-- Concrete mid-run controller with distinct names and one processing
plugin. -/
def ctrlW8 : Ctrl :=
  { instances := [mkItem "A" "Model" true true, mkItem "B" "Model" true true],
    plugins := [{ mkItem "V" "Validator" false true with isProcessing := true },
                mkItem "E" "Extractor" false true],
    hasErrors := false, isRunning := true }

/-- A step result naming instance A. -/
def dataW8 : StepResult := { instanceName := some "A", pluginName := none, error := false }

/-- Witness for the at-most-one-processing claim at a concrete fold. -/
theorem at_most_one_processing_witness :
    ((ctrlW8.instances.map (fun it => it.name)).Nodup ∧
     (ctrlW8.plugins.map (fun it => it.name)).Nodup ∧
     procCount ctrlW8.plugins ≤ 1) ∧
    (procCount (process_handler dataW8 ctrlW8).1.instances ≤ 1 ∧
     procCount (process_handler dataW8 ctrlW8).1.plugins ≤ 1) :=
  ⟨⟨by decide, by decide, by decide⟩,
   at_most_one_processing ctrlW8 dataW8 (by decide) (by decide) (by decide)⟩

/-- When _has_errors is set and the result names a plugin whose first
name-match in the collection is of the extraction kind, the plugin loop
halts, emitting exactly the info event and clearing nothing else. -/
theorem updatePluginsGo_halt (data : StepResult) (items : List Item) (nm : String) (it : Item)
    (hd : data.pluginName = some nm)
    (hf : items.find? (fun p => p.name == nm) = some it)
    (ht : it.type = "Extractor") :
    ∃ out, updatePluginsGo data true items =
      ⟨out, true, true, [Event.info "Stopped due to failed vaildation"]⟩ := by
  induction items with
  | nil => simp at hf
  | cons x rest ih =>
    by_cases hx : x.name = nm
    · have hxb : (x.name == nm) = true := by simp [hx]
      have hcons : List.find? (fun p => p.name == nm) (x :: rest) = some x :=
        List.find?_cons_of_pos rest hxb
      rw [hcons] at hf
      injection hf with hf
      subst hf
      refine ⟨x :: rest, ?_⟩
      simp [updatePluginsGo, hd, hx, ht]
    · have hxb : (x.name == nm) = false := by simp [hx]
      have hcons : List.find? (fun p => p.name == nm) (x :: rest) =
          List.find? (fun p => p.name == nm) rest :=
        List.find?_cons_of_neg rest (by simp [hxb])
      rw [hcons] at hf
      rcases ih hf with ⟨out, hout⟩
      simp only [updatePluginsGo]
      rw [if_neg (by rw [hd]; intro hcc; injection hcc with hcc; exact hx hcc.symm), hout]
      exact ⟨_, rfl⟩

/-- C1 (amended): once hasErrors is true, a 200 step result naming a
plugin of the extraction kind halts the loop regardless of that result's
own error flag: isRunning becomes false, exactly one info notification
reading "Stopped due to failed vaildation" is emitted, exactly one
finished notification follows, and exactly one further POST /next request
— the one the loop body had already issued after folding the halting
result — is made before the finished notification. -/
theorem halt_on_extractor_amended (c : Ctrl) (r r2 : HostResponse)
    (rest : List HostResponse) (nm : String) (it : Item)
    (hhe : c.hasErrors = true) (hrun : c.isRunning = true)
    (hs : r.status = 200) (hp : r.result.pluginName = some nm)
    (hf : c.plugins.find? (fun p => p.name == nm) = some it)
    (ht : it.type = "Extractor") :
    ∃ c2, runLoop c (r :: r2 :: rest) = some (c2,
        [Event.request "POST" "/next", Event.processed r.result,
         Event.info "Stopped due to failed vaildation",
         Event.request "POST" "/next", Event.finished,
         Event.request "POST" "/session"]) ∧
      c2.isRunning = false ∧ c2.hasErrors = false := by
  rcases updatePluginsGo_halt r.result c.plugins nm it hp hf ht with ⟨out, hout⟩
  have hph : process_handler r.result c =
      ({ instances := update_instances r.result c.instances, plugins := out,
         hasErrors := true, isRunning := false },
       [Event.info "Stopped due to failed vaildation"]) := by
    unfold process_handler update_plugins
    dsimp only
    rw [hhe, hout]
    rfl
  refine ⟨(reset_status (process_handler r.result c).1).1, ?_, ?_, ?_⟩
  · simp only [runLoop]
    rw [if_pos ⟨hrun, hs⟩, hph]
    simp only [runLoop]
    rw [if_neg (by simp)]
    rfl
  · rfl
  · rfl

/-- Concrete mid-run controller with hasErrors already set and an
extraction-kind plugin still pending. -/
def ctrlW1 : Ctrl :=
  { instances := [mkItem "A" "Model" true true],
    plugins := [{ mkItem "V" "Validator" false true with hasError := true },
                mkItem "E" "Extractor" false true],
    hasErrors := true, isRunning := true }

/-- A 200 /next response naming plugin E with no error flag. -/
def respE : HostResponse :=
  { status := 200, result := { instanceName := none, pluginName := some "E", error := false } }

/-- An end-of-work /next response. -/
def respEnd : HostResponse :=
  { status := 404, result := { instanceName := none, pluginName := none, error := false } }

/-- Witness for the amended halt rule at a concrete run. -/
theorem halt_on_extractor_amended_witness :
    (ctrlW1.hasErrors = true ∧ ctrlW1.isRunning = true ∧ respE.status = 200 ∧
     respE.result.pluginName = some "E" ∧
     ctrlW1.plugins.find? (fun p => p.name == "E") = some (mkItem "E" "Extractor" false true) ∧
     (mkItem "E" "Extractor" false true).type = "Extractor") ∧
    (∃ c2, runLoop ctrlW1 (respE :: respEnd :: []) = some (c2,
        [Event.request "POST" "/next", Event.processed respE.result,
         Event.info "Stopped due to failed vaildation",
         Event.request "POST" "/next", Event.finished,
         Event.request "POST" "/session"]) ∧
      c2.isRunning = false ∧ c2.hasErrors = false) :=
  ⟨⟨rfl, rfl, rfl, rfl, by decide, rfl⟩,
   halt_on_extractor_amended ctrlW1 respE respEnd [] "E" (mkItem "E" "Extractor" false true)
     rfl rfl rfl rfl (by decide) rfl⟩

/-- Controller at the start of a run that will record a validation error
and then reach the extraction plugin. -/
def ctrlC1 : Ctrl :=
  { instances := [mkItem "A" "Model" true true],
    plugins := [mkItem "V" "Validator" false true, mkItem "E" "Extractor" false true],
    hasErrors := false, isRunning := true }

/-- A 200 /next response naming plugin V with the error flag set. -/
def respV : HostResponse :=
  { status := 200, result := { instanceName := none, pluginName := some "V", error := true } }

/-- The full event trace of the run folded below: the halting fold is
followed by one more POST /next request before the finished emission. -/
def evsC1 : List Event :=
  [Event.request "POST" "/next", Event.processed respV.result,
   Event.request "POST" "/next", Event.processed respE.result,
   Event.info "Stopped due to failed vaildation",
   Event.request "POST" "/next", Event.finished,
   Event.request "POST" "/session"]

/-- C1 counterexample: in a concrete run where plugin V errors and the
extraction plugin E then halts the loop, the info notification reads
"Stopped due to failed vaildation" — the message quoted by the claim is
never emitted — and one further POST /next request (index 5 of the trace,
right after the halting fold at index 4) is issued before the finished
notification, while the claim asserts that no further /next request is
made. -/
theorem halt_message_and_request_counterexample :
    (runLoop ctrlC1 [respV, respE, respEnd]).map Prod.snd = some evsC1 ∧
    Event.info "stopped due to failed validation" ∉ evsC1 ∧
    evsC1.get? 4 = some (Event.info "Stopped due to failed vaildation") ∧
    evsC1.get? 5 = some (Event.request "POST" "/next") := by
  refine ⟨by decide, by decide, by decide, by decide⟩
